import Mathlib

/-
Verification of the finite-field engine of binext.py (package binext): the
table-building constructor ff.__init__, the element arithmetic of class ffelt
(__add__, __sub__, __mul__, __truediv__, __pow__, __eq__), conjugates and
minpoly.  The Python code is shallowly embedded: machine integers become Nat
or Int (Python % on a positive modulus is Int.emod), Python None becomes an
Option sentinel, raised exceptions become an explicit error type, and Python
dicts become finite maps from Nat keys to coded values.  In Python 3 a
`raise "string"` statement itself raises TypeError (exceptions must derive
from BaseException), so every raise path of this module is modelled as a
typeError value.

All recursion is written with explicit recursors (Nat.rec, List.rec) and the
identity functions forceN / forceO / forceFF are inserted so that kernel
evaluation keeps intermediate values as numerals; none of this changes the
functions computed.
-/

namespace Binext

/-- Ascending loop: applies `step` at indices 0, 1, …, cnt-1, like Python
`for n in range(cnt)` threading a state. -/
def upFold {σ : Type} (step : σ → Nat → σ) (init : σ) (cnt : Nat) : σ :=
  Nat.rec (motive := fun _ => σ) init (fun k ih => step ih k) cnt

/-- List append (Python list +), by explicit recursor. -/
def lappend {α : Type} (l r : List α) : List α :=
  List.rec (motive := fun _ => List α) r (fun a _ ih => a :: ih) l

/-- List length (Python len), by explicit recursor. -/
def llength {α : Type} (l : List α) : Nat :=
  List.rec (motive := fun _ => Nat) 0 (fun _ _ ih => ih + 1) l

/-- Bool all over a list, by explicit recursor. -/
def lall {α : Type} (p : α → Bool) (l : List α) : Bool :=
  List.rec (motive := fun _ => Bool) true (fun a _ ih => p a && ih) l

/-- List map, by explicit recursor. -/
def lmap {α β : Type} (g : α → β) (l : List α) : List β :=
  List.rec (motive := fun _ => List β) [] (fun a _ ih => g a :: ih) l

/-- Identity on Nat; matching forces evaluation to a numeral. -/
def forceN {α : Type} (n : Nat) (k : Nat → α) : α :=
  match n with
  | 0 => k 0
  | m+1 => k (m+1)

/-- Identity on Option Nat with full forcing of the payload. -/
def forceO {α : Type} (o : Option Nat) (k : Option Nat → α) : α :=
  match o with
  | none => k none
  | some v => forceN v (fun w => k (some w))

/-- A Python dict with small-Nat keys and values is modelled as a finite map
encoded in one natural number: digit k of `enc` in base 512 is 0 when key k is
absent and v+1 when the dict maps k to v.  Lookup reads a digit. -/
def pdGet (enc k : Nat) : Option Nat :=
  match enc / Nat.pow 512 k % 512 with
  | 0 => none
  | d+1 => some d

/-- Dict assignment `d[k] = v`: overwrites digit k with v+1. -/
def pdSet (enc k v : Nat) : Nat :=
  enc + (v + 1) * Nat.pow 512 k - (enc / Nat.pow 512 k % 512) * Nat.pow 512 k

/-- Key coding for the dicts keyed by `None | int`: the sentinel None sits at
index 0 and the int key n at index n+1. -/
def kIdx : Option Nat → Nat
  | none => 0
  | some n => n + 1

/-- Value coding for dict values that are `None | int`: None codes to 0 and
the int n to n+1. -/
def vIdx : Option Nat → Nat
  | none => 0
  | some n => n + 1

/-- Decode a coded `None | int` dict value. -/
def vDec (c : Nat) : Option Nat :=
  match c with
  | 0 => none
  | d+1 => some d

/-- Python exceptions.  Every `raise <str>` in binext.py raises TypeError in
Python 3, modelled by the typeError constructor.  The named error kinds of the
specification are listed so that one can state that the code never produces
them.  keyError models a failed dict lookup; fuelExhausted is the modelling
artifact for the unbounded while loop in conjugates when the fuel bound is too
small (it never occurs at the fuel used here). -/
inductive pyexc where
  | typeError (msg : String)
  | keyError
  | fuelExhausted
  | unsupportedFieldOrder
  | invalidPrimitivePolynomial
  | fieldMismatch
  | divisionByZero
  | invalidExponentType
  | invariantViolation

/-- The state of a field object built by ff.__init__: g is the primitive
polynomial bitmask, m the degree, q = 2^m, and the two lookup dicts.  The
format string self.fmt and the debug flag are presentation-only and omitted. -/
structure ff where
  g : Nat
  m : Nat
  q : Nat
  power_to_poly : Nat
  poly_to_power : Nat

/-- One iteration of the table loop in ff.__init__ (binext.py lines 97-106):
record power_to_poly[n] = a and poly_to_power[a] = n, then a <<= 1 and, when
bit m overflows (a & q > 0), a = (a & (q-1)) ^ gp. -/
def ffStep (q gp : Nat) (st : Nat × Nat × Nat) (n : Nat) : Nat × Nat × Nat :=
  match st with
  | (a, p2p, ptp) =>
    let p2p2 := pdSet p2p (kIdx (some n)) a
    let ptp2 := pdSet ptp a (vIdx (some n))
    let a2 := a <<< 1
    match Nat.blt 0 (a2 &&& q) with
    | true => ((a2 &&& (q - 1)) ^^^ gp, p2p2, ptp2)
    | false => (a2, p2p2, ptp2)

/-- Floor of log2, with fuel; models int(np.log2(g)), exact for the g values
that arise (small integers, where the float computation is exact enough that
truncation equals the floor). -/
def log2floor : Nat → Nat → Nat
  | 0, _ => 0
  | fuel+1, n => if n ≥ 2 then log2floor fuel (n / 2) + 1 else 0

/-- ff.__init__ once glist is known (binext.py lines 80-106): g = sum of
2^i over the exponent list, m = int(log2(g)), q = 2^m, gp = g % q, then the
table loop for n in range(q-1) starting from a = 1, with the two dicts
initialised to power_to_poly = `{None: 0}` and poly_to_power = `{0: None}`. -/
def mkffFromList (glist : List Nat) : ff :=
  let g := List.rec (motive := fun _ => Nat → Nat) (fun acc => acc)
    (fun i _ ih => fun acc => ih (acc + Nat.pow 2 i)) glist 0
  let m := log2floor g g
  let q := Nat.pow 2 m
  let gp := g % q
  let st := upFold (ffStep q gp) (1, pdSet 0 (kIdx none) 0, pdSet 0 0 (vIdx none)) (q - 1)
  ⟨g, m, q, st.2.1, st.2.2⟩

/-- The gspec argument of ff.__init__: an int field order or an explicit list
of primitive-polynomial exponents.  (A gspec of any other Python type hits the
final raise of ff.__init__ and is not representable here.) -/
inductive gspec where
  | ord (n : Nat)
  | poly (l : List Nat)

/-- The catalog ff.primpolys of default primitive polynomials. -/
def primpolys (q : Nat) : Option (List Nat) :=
  match q with
  | 4 => some [0, 1, 2]
  | 8 => some [0, 1, 3]
  | 16 => some [0, 1, 4]
  | 32 => some [0, 2, 5]
  | 64 => some [0, 1, 6]
  | 128 => some [0, 3, 7]
  | 256 => some [0, 2, 3, 4, 8]
  | _ => none

/-- ff.__init__ (binext.py lines 68-106).  An int order outside the catalog
executes `raise <str>`, which in Python 3 raises TypeError. -/
def ff_init (g : gspec) : Except pyexc ff :=
  match g with
  | .ord n =>
    match primpolys n with
    | some glist => .ok (mkffFromList glist)
    | none => .error (.typeError "No default primitive polynomial for field order")
  | .poly glist => .ok (mkffFromList glist)

/-- Identity on ff forcing all five fields to numerals (evaluation control). -/
def forceFF {α : Type} (f : ff) (k : ff → α) : α :=
  match f with
  | ⟨g, m, q, p2p, ptp⟩ =>
    forceN g (fun g2 => forceN m (fun m2 => forceN q (fun q2 =>
      forceN p2p (fun a => forceN ptp (fun b => k ⟨g2, m2, q2, a, b⟩)))))

/-- A field element: the owning tables and the stored exponent, None being the
zero sentinel.  The debug and suppressField presentation flags are omitted. -/
structure ffelt where
  f : ff
  elt : Option Nat

/-- A Python value that can appear as the elt argument or as the right operand
of an ffelt operation: None, an int, or another ffelt. -/
inductive pyval where
  | pynone
  | pyint (k : Int)
  | pyelt (x : ffelt)

/-- ffelt.__init__ with both arguments given (binext.py lines 242-247):
None is stored as the sentinel, an int is stored mod q-1 (Python % on the
positive modulus q-1 is Int.emod, hence non-negative), anything else hits
`raise <str>`, a TypeError in Python 3. -/
def ffelt_init (elt : pyval) (f : ff) : Except pyexc ffelt :=
  match elt with
  | .pynone => .ok ⟨f, none⟩
  | .pyint k => .ok ⟨f, some ((k.emod ((f.q : Int) - 1)).toNat)⟩
  | .pyelt _ => .error (.typeError "elt must be int or None")

/-- ffelt.__init__ called with a field alone (binext.py lines 232-234): the
default f=-1 triggers f = elt; elt = 1, so the stored exponent is 1 % (q-1). -/
def ffelt_init1 (f : ff) : Except pyexc ffelt :=
  ffelt_init (.pyint 1) f

/-- Truthiness of the Python test `a == None` where a is an operand: True for
the literal None; False for an int; and False for an ffelt, because
ffelt.__eq__ falls through all its branches on a None argument and returns
None, which is falsy. -/
def truthyEqNoneV : pyval → Bool
  | .pynone => true
  | .pyint _ => false
  | .pyelt _ => false

/-- Truthiness of `self.elt == 0` used inside ffelt.__eq__. -/
def truthyEqOne : Option Nat → Bool
  | some 0 => true
  | _ => false

/-- Truthiness of the Python test `a == 1`: int comparison for ints, and for
an ffelt operand ffelt.__eq__(a, 1), which returns a.elt == 0 with no field
check; False for None. -/
def truthyEqOneV : pyval → Bool
  | .pynone => false
  | .pyint k => k == 1
  | .pyelt y => truthyEqOne y.elt

/-- Truthiness of the Python test `a == 0`: int comparison for ints, and for
an ffelt operand ffelt.__eq__(a, 0), which returns a.elt == None with no field
check; False for None. -/
def truthyEqZeroV : pyval → Bool
  | .pynone => false
  | .pyint k => k == 0
  | .pyelt y =>
    match y.elt with
    | none => true
    | some _ => false

/-- Truthiness of a Python bool-or-None value. -/
def truthy : Option Bool → Bool
  | some b => b
  | none => false

/-- Table lookup self.f.power_to_poly[key]; a missing key would be a Python
KeyError. -/
def pget (d : Nat) (k : Option Nat) : Except pyexc Nat :=
  match pdGet d (kIdx k) with
  | some v => .ok v
  | none => .error .keyError

/-- Table lookup self.f.poly_to_power[key] with a `None | int` value. -/
def dget (d : Nat) (k : Nat) : Except pyexc (Option Nat) :=
  match pdGet d k with
  | some c => .ok (vDec c)
  | none => .error .keyError

/-- Tail of ffelt.__add__ (binext.py lines 282-284): the deep copy of self
with elt replaced by poly_to_power[result]. -/
def ffaddFinish (x : ffelt) (result : Nat) : Except pyexc ffelt :=
  match dget x.f.poly_to_power result with
  | .ok e => .ok ⟨x.f, e⟩
  | .error ex => .error ex

/-- ffelt.__add__ (binext.py lines 252-284).  The chain is: if a == 1 (truthy
also for an ffelt of exponent 0, from any field), xor power_to_poly[self.elt]
with power_to_poly[0], both from self.f; elif a is an ffelt, check a.q ==
self.q and xor the two table entries (a raise on mismatch); every other
operand (including the literal None, whose early `result = self.elt`
assignment is dead) reaches the final raise.  All raises are `raise <str>`,
TypeError in Python 3. -/
def ffelt_add (x : ffelt) (a : pyval) : Except pyexc ffelt :=
  match truthyEqOneV a with
  | true =>
    match pget x.f.power_to_poly x.elt, pget x.f.power_to_poly (some 0) with
    | .ok p1, .ok p2 => ffaddFinish x (p1 ^^^ p2)
    | .error ex, _ => .error ex
    | _, .error ex => .error ex
  | false =>
    match a with
    | .pyelt y =>
      match Nat.beq y.f.q x.f.q with
      | true =>
        match pget x.f.power_to_poly x.elt, pget y.f.power_to_poly y.elt with
        | .ok p1, .ok p2 => ffaddFinish x (p1 ^^^ p2)
        | .error ex, _ => .error ex
        | _, .error ex => .error ex
      | false => .error (.typeError "Cannot add elements from different field sizes")
    | _ => .error (.typeError "Cannot add ffelt with element of type")

/-- ffelt.__sub__ simply calls __add__. -/
def ffelt_sub (x : ffelt) (a : pyval) : Except pyexc ffelt :=
  ffelt_add x a

/-- ffelt.__mul__ (binext.py lines 289-307): None result when a == None
(literal) or self is the sentinel; None when a == 0 (truthy for an ffelt zero
of any field); self.elt when a == 1 (truthy for an ffelt of exponent 0 of any
field); exponent addition mod q-1 for a same-field ffelt; raise otherwise. -/
def ffelt_mul (x : ffelt) (a : pyval) : Except pyexc ffelt :=
  match truthyEqNoneV a, x.elt with
  | true, _ => .ok ⟨x.f, none⟩
  | false, none => .ok ⟨x.f, none⟩
  | false, some u =>
    match truthyEqZeroV a with
    | true => .ok ⟨x.f, none⟩
    | false =>
      match truthyEqOneV a with
      | true => .ok ⟨x.f, some u⟩
      | false =>
        match a with
        | .pyelt y =>
          match Nat.beq y.f.q x.f.q with
          | true =>
            match y.elt with
            | some v => .ok ⟨x.f, some ((u + v) % (x.f.q - 1))⟩
            | none => .error (.typeError "unsupported operand types int and NoneType")
          | false => .error (.typeError "Cannot multiply elements from different field sizes")
        | _ => .error (.typeError "Cannot multipy ffelt with element of type")

/-- ffelt.__truediv__ (binext.py lines 309-327).  The zero-divisor guard is
`if a == None`, which is truthy only for the literal None (an ffelt zero makes
__eq__ return the falsy None), so that guard raises only on a literal None.
A zero self returns zero whatever the divisor.  An int divisor is subtracted
directly; a same-field ffelt divisor subtracts a.elt, which for the ffelt zero
is the Python expression self.elt - None, a TypeError. -/
def ffelt_div (x : ffelt) (a : pyval) : Except pyexc ffelt :=
  match truthyEqNoneV a with
  | true => .error (.typeError "Division by zero not defined")
  | false =>
    match x.elt with
    | none => .ok ⟨x.f, none⟩
    | some u =>
      match a with
      | .pyint k => .ok ⟨x.f, some ((((u : Int) - k).emod ((x.f.q : Int) - 1)).toNat)⟩
      | .pyelt y =>
        match Nat.beq y.f.q x.f.q with
        | true =>
          match y.elt with
          | some v => .ok ⟨x.f, some ((((u : Int) - (v : Int)).emod ((x.f.q : Int) - 1)).toNat)⟩
          | none => .error (.typeError "unsupported operand types int and NoneType")
        | false => .error (.typeError "Cannot multiply elements from different field sizes")
      | .pynone => .error (.typeError "Cannot multipy ffelt with element of type")

/-- ffelt.__pow__ with an int exponent (binext.py lines 329-342): zero stays
zero, otherwise the exponent is multiplied mod q-1 (Int.emod, matching the
Python % also for negative exponents). -/
def ffelt_pow (x : ffelt) (k : Int) : ffelt :=
  match x.elt with
  | none => ⟨x.f, none⟩
  | some u => ⟨x.f, some ((((u : Int) * k).emod ((x.f.q : Int) - 1)).toNat)⟩

/-- ffelt.__eq__ (binext.py lines 376-385): a == 0 compares to the zero
sentinel and a == 1 to exponent 0 (each truthy also for an ffelt of the
corresponding value from any field, with no field check); a same-field ffelt
compares exponents; a different-field ffelt raises; any other argument falls
off the function, returning Python None. -/
def ffelt_eq (x : ffelt) (a : pyval) : Except pyexc (Option Bool) :=
  match truthyEqZeroV a with
  | true => .ok (some (x.elt == none))
  | false =>
    match truthyEqOneV a with
    | true => .ok (some (x.elt == some 0))
    | false =>
      match a with
      | .pyelt y =>
        match Nat.beq y.f.q x.f.q with
        | true => .ok (some (y.elt == x.elt))
        | false => .error (.typeError "Cannot add elements from different field sizes")
      | _ => .ok none

/-- The while loop of conjugates (binext.py lines 350-355) on a non-sentinel
start exponent, with fuel: append ffelt(conj, f) — whose constructor stores
conj % (q-1) — then conj = (conj+conj) % (q-1), stopping when conj returns to
the start.  Fuel q always suffices, since the doubled exponents range over
[0, q-2]. -/
def conjLoop (f : ff) (start : Nat) (fuel : Nat) : Option (List Nat) :=
  Nat.rec (motive := fun _ => Nat → List Nat → Option (List Nat))
    (fun _ _ => none)
    (fun _ ih => fun conj acc =>
      let acc2 := lappend acc [conj % (f.q - 1)]
      forceN ((conj + conj) % (f.q - 1)) (fun conj2 =>
        match Nat.beq conj2 start with
        | true => some acc2
        | false => ih conj2 acc2))
    fuel start []

/-- ffelt.conjugates (binext.py lines 348-356).  On the zero sentinel the
first loop iteration evaluates None + None, a TypeError. -/
def conjugates (x : ffelt) : Except pyexc (List ffelt) :=
  match x.elt with
  | none => .error (.typeError "unsupported operand types NoneType and NoneType")
  | some e =>
    match conjLoop x.f e x.f.q with
    | some orbit => .ok (lmap (fun c => (⟨x.f, some c⟩ : ffelt)) orbit)
    | none => .error .fuelExhausted

/-- Binary digits of n, most significant first (np.binary_repr), with fuel. -/
def natBitsAux (fuel : Nat) : Nat → List Nat :=
  Nat.rec (motive := fun _ => Nat → List Nat)
    (fun _ => [])
    (fun _ ih => fun n =>
      match Nat.beq n 0 with
      | true => []
      | false => lappend (ih (n / 2)) [n % 2])
    fuel

def lreplicate (n : Nat) (x : Nat) : List Nat :=
  Nat.rec (motive := fun _ => List Nat) [] (fun _ ih => x :: ih) n

/-- bin_array(num, m) (binext.py lines 209-211): binary repr of num (one digit
for 0) left-padded with zeros to length m. -/
def bin_array (num m : Nat) : List Nat :=
  let s := match Nat.beq num 0 with
    | true => [0]
    | false => natBitsAux num num
  lappend (lreplicate (m - llength s) 0) s

/-- The inner evaluation loop of minpoly (binext.py lines 407-410): starting
from result = ffelt(None, f), for each position with a positive coefficient,
result = result + self ** (len(candidate) - power - 1). -/
def evalTerms (x : ffelt) (clen : Nat) (cand : List Nat) : Except pyexc (Option Nat) :=
  List.rec (motive := fun _ => Nat → Option Nat → Except pyexc (Option Nat))
    (fun _ relt => .ok relt)
    (fun coeff _ ih => fun power relt =>
      match Nat.blt 0 coeff with
      | true =>
        match ffelt_add ⟨x.f, relt⟩ (.pyelt (ffelt_pow x ((clen - power - 1 : Nat) : Int))) with
        | .ok r2 => forceO r2.elt (fun w => ih (power + 1) w)
        | .error ex => .error ex
      | false => ih (power + 1) relt)
    cand 0 none

/-- Evaluation of one candidate polynomial at x, returning the final result
element. -/
def evalPolyAt (x : ffelt) (candidate : List Nat) : Except pyexc ffelt :=
  match evalTerms x (llength candidate) candidate with
  | .ok relt => .ok ⟨x.f, relt⟩
  | .error ex => .error ex

/-- The candidate search of minpoly (binext.py lines 401-421): i runs over
range(2^(L-1)) ascending, candidate = [1] + bin_array(i, L-1) + [1]; the first
candidate whose evaluation compares equal to 0 (via __eq__) is returned; when
the loop ends without break, the candidate variable still holds the last
candidate and is returned un-listed. -/
def minpolySearch (x : ffelt) (L : Nat) (cnt : Nat) : Except pyexc (List Nat) :=
  let r : Except pyexc (Option (List Nat)) := upFold
    (fun st i =>
      match st with
      | .error ex => .error ex
      | .ok (some c) => .ok (some c)
      | .ok none =>
        let candidate := 1 :: lappend (bin_array i (L - 1)) [1]
        match evalPolyAt x candidate with
        | .error ex => .error ex
        | .ok r0 =>
          match ffelt_eq r0 (.pyint 0) with
          | .error ex => .error ex
          | .ok ob =>
            match truthy ob with
            | true => .ok (some candidate)
            | false => .ok none)
    (.ok none) cnt
  match r with
  | .error ex => .error ex
  | .ok (some c) => .ok c
  | .ok none => .ok (1 :: lappend (bin_array (cnt - 1) (L - 1)) [1])

/-- ffelt.minpoly with coeffs=False (binext.py lines 387-432).  The guard
`if self.elt > 0` compares None with an int when self is the zero sentinel,
which raises TypeError in Python 3, so the `elif self.elt == None` branch
returning [1, 0] is dead code.  Exponent 0 returns [1, 1]; a positive
exponent runs the search over 2^(L-1) candidates, L the number of
conjugates. -/
def minpoly (x : ffelt) : Except pyexc (List Nat) :=
  match x.elt with
  | none => .error (.typeError "unorderable types NoneType and int")
  | some 0 => .ok [1, 1]
  | some (e+1) =>
    match conjugates ⟨x.f, some (e+1)⟩ with
    | .error ex => .error ex
    | .ok orbit =>
      forceN (llength orbit) (fun L => minpolySearch x L (Nat.pow 2 (L - 1)))

/- Check functions for the claims. -/

/-- C1 check on one field: forward and backward table inverses plus the
out-of-band zero sentinels.  The backward sweep covers every possible
poly_to_power key v in [1, q-1]; keys above q-1 cannot occur because the
encoded dict is below 512^q, which the last conjunct certifies. -/
def tablesCheck (f : ff) : Bool :=
  forceFF f (fun fc =>
    upFold (fun b n => b &&
      (match pget fc.power_to_poly (some n) with
       | .ok v =>
         match dget fc.poly_to_power v with
         | .ok (some n2) => Nat.beq n2 n
         | _ => false
       | .error _ => false)) true (fc.q - 1) &&
    upFold (fun b vm => b &&
      (match pdGet fc.poly_to_power (vm + 1) with
       | none => true
       | some c =>
         match vDec c with
         | some n =>
           match pget fc.power_to_poly (some n) with
           | .ok v2 => Nat.beq v2 (vm + 1)
           | .error _ => false
         | none => false)) true (fc.q - 1) &&
    (match pget fc.power_to_poly none with
     | .ok 0 => true
     | _ => false) &&
    (match dget fc.poly_to_power 0 with
     | .ok none => true
     | _ => false) &&
    Nat.blt fc.poly_to_power (Nat.pow 512 fc.q))

/-- C2 check on one element: minpoly succeeds, is monic with leading
coefficient 1, has length one more than the conjugate orbit, and evaluates to
the zero sentinel at the element via the field add and pow operations. -/
def minpolyCheckElt (f : ff) (e : Nat) : Bool :=
  let x : ffelt := ⟨f, some e⟩
  match minpoly x, conjugates x with
  | .ok mp, .ok orbit =>
    (match mp with
     | 1 :: _ => true
     | _ => false) &&
    Nat.beq (llength mp) (llength orbit + 1) &&
    (match evalPolyAt x mp with
     | .ok r =>
       match r.elt with
       | none => true
       | some _ => false
     | .error _ => false)
  | _, _ => false

/-- C2 check on the cnt exponents lo, lo+1, …, lo+cnt-1. -/
def mpcRange (fc : ff) (cnt : Nat) : Nat → Bool :=
  Nat.rec (motive := fun _ => Nat → Bool)
    (fun _ => true)
    (fun _ ih => fun lo => minpolyCheckElt fc lo && ih (lo + 1))
    cnt

/-- C2 check on one field: every exponent in [0, q-2]. -/
def minpolyCheck (f : ff) : Bool :=
  forceFF f (fun fc => mpcRange fc (fc.q - 1) 0)

/-- C7 check that a conjugate list is exactly the doubling orbit of e: each
entry holds the next iterate, no entry after the first equals e, and the
doubling of the last entry returns to e. -/
def orbitMatches (f : ff) (e : Nat) (l : List ffelt) : Bool :=
  List.rec (motive := fun _ => Nat → Bool → Bool)
    (fun cur isFirst => !isFirst && Nat.beq cur e)
    (fun x _ ih => fun cur isFirst =>
      (match x.elt with
       | some c => Nat.beq c cur
       | none => false) &&
      (isFirst || !(Nat.beq cur e)) &&
      ih ((cur + cur) % (f.q - 1)) false)
    l e true

/-- C7 check on one element: conjugates terminates with an orbit list that
matches the doubling iterates and whose length divides m. -/
def conjCheckElt (f : ff) (e : Nat) : Bool :=
  match conjugates ⟨f, some e⟩ with
  | .error _ => false
  | .ok l =>
    forceN (llength l) (fun L =>
      Nat.blt 0 L && Nat.beq (f.m % L) 0 && orbitMatches f e l)

/-- C7 check on one field. -/
def conjCheck (f : ff) : Bool :=
  forceFF f (fun fc => upFold (fun b e => b && conjCheckElt fc e) true (fc.q - 1))

/-- C8 check on one element a: a + 0 == a and a + a == 0, the comparisons
going through ffelt.__eq__ as in the source tests. -/
def addCheckElt (f : ff) (x : ffelt) : Bool :=
  let zero : ffelt := ⟨f, none⟩
  (match ffelt_add x (.pyelt zero) with
   | .ok s =>
     match ffelt_eq s (.pyelt x) with
     | .ok ob => truthy ob
     | .error _ => false
   | .error _ => false) &&
  (match ffelt_add x (.pyelt x) with
   | .ok s =>
     match ffelt_eq s (.pyelt zero) with
     | .ok ob => truthy ob
     | .error _ => false
   | .error _ => false)

/-- C8 check on one field: the zero element and every exponent. -/
def addCheck (f : ff) : Bool :=
  forceFF f (fun fc =>
    addCheckElt fc ⟨fc, none⟩ &&
    upFold (fun b e => b && addCheckElt fc ⟨fc, some e⟩) true (fc.q - 1))

/-- C10 check: a result either succeeded or failed with the generic TypeError
that Python 3 turns every `raise <str>` into; any distinguishable error kind
would make this false. -/
def errOkOrTypeError {α : Type} : Except pyexc α → Bool
  | .ok _ => true
  | .error (.typeError _) => true
  | .error _ => false

/-- C10 sweep: ffelt operations over a mix of operands (None, several ints,
same-field and cross-field elements including zero and one), plus the
constructor raise path and minpoly and conjugates on the zero sentinel. -/
def c10sweep (f8 f16 : ff) : Bool :=
  let elems : List ffelt :=
    [⟨f8, none⟩, ⟨f8, some 0⟩, ⟨f8, some 3⟩, ⟨f16, none⟩, ⟨f16, some 0⟩, ⟨f16, some 5⟩]
  let ops : List pyval :=
    lappend [.pynone, .pyint (-2), .pyint (-1), .pyint 0, .pyint 1, .pyint 2, .pyint 7]
      (lmap .pyelt elems)
  lall (fun x =>
    lall (fun a =>
      errOkOrTypeError (ffelt_add x a) &&
      errOkOrTypeError (ffelt_sub x a) &&
      errOkOrTypeError (ffelt_mul x a) &&
      errOkOrTypeError (ffelt_div x a) &&
      errOkOrTypeError (ffelt_eq x a)) ops &&
    errOkOrTypeError (ffelt_init (.pyelt x) f8) &&
    errOkOrTypeError (minpoly x) &&
    errOkOrTypeError (conjugates x)) elems

/-- C5 demonstration in GF(16): dividing the zero element by the zero element
returns the zero element (no error), dividing a nonzero element by the zero
element fails with the TypeError from self.elt - None, and only a literal
None divisor reaches the division-by-zero raise (itself a TypeError). -/
def c5demo (f : ff) : Bool :=
  forceFF f (fun fc =>
    let zero : ffelt := ⟨fc, none⟩
    let x : ffelt := ⟨fc, some 3⟩
    (match ffelt_div zero (.pyelt zero) with
     | .ok r =>
       match r.elt with
       | none => true
       | some _ => false
     | .error _ => false) &&
    (match ffelt_div x (.pyelt zero) with
     | .error (.typeError _) => true
     | _ => false) &&
    (match ffelt_div x .pynone with
     | .error (.typeError _) => true
     | _ => false))

/-- C6 demonstration: with a from GF(8) and operands from GF(16), the
operations that should fail on mismatched fields instead return values when
the foreign operand compares equal to the literal 1 or 0. -/
def c6demo (f8 f16 : ff) : Bool :=
  forceFF f8 (fun g8 => forceFF f16 (fun g16 =>
    let a : ffelt := ⟨g8, some 2⟩
    let one16 : ffelt := ⟨g16, some 0⟩
    let zero16 : ffelt := ⟨g16, none⟩
    (match ffelt_add a (.pyelt one16) with
     | .ok _ => true
     | .error _ => false) &&
    (match ffelt_mul a (.pyelt zero16) with
     | .ok r =>
       match r.elt with
       | none => true
       | some _ => false
     | .error _ => false) &&
    (match ffelt_mul a (.pyelt one16) with
     | .ok r =>
       match r.elt with
       | some 2 => true
       | _ => false
     | .error _ => false) &&
    (match ffelt_eq a (.pyelt zero16) with
     | .ok (some false) => true
     | _ => false) &&
    (match ffelt_div zero16 (.pyelt a) with
     | .ok r =>
       match r.elt with
       | none => true
       | some _ => false
     | .error _ => false)))

/- Theorems settling the claims. -/

set_option maxRecDepth 1000000 in
set_option maxHeartbeats 2000000000 in
/-- Claim C1: for every supported field order in the catalog, the tables built
by ff.__init__ are mutual inverses on the nonzero elements, with the zero
element kept out-of-band as power_to_poly[None] == 0 and
poly_to_power[0] == None. -/
theorem c1_tables_bijection :
    ((match ff_init (.ord 4) with
      | .ok f => tablesCheck f
      | .error _ => false) &&
     (match ff_init (.ord 8) with
      | .ok f => tablesCheck f
      | .error _ => false) &&
     (match ff_init (.ord 16) with
      | .ok f => tablesCheck f
      | .error _ => false) &&
     (match ff_init (.ord 32) with
      | .ok f => tablesCheck f
      | .error _ => false) &&
     (match ff_init (.ord 64) with
      | .ok f => tablesCheck f
      | .error _ => false) &&
     (match ff_init (.ord 128) with
      | .ok f => tablesCheck f
      | .error _ => false) &&
     (match ff_init (.ord 256) with
      | .ok f => tablesCheck f
      | .error _ => false)) = true := by decide

set_option maxRecDepth 1000000 in
set_option maxHeartbeats 2000000000 in
/-- Claim C3 (code bug): minpoly on the zero-sentinel element does not return
[1, 0]; the guard `self.elt > 0` compares None with an int and raises
TypeError in Python 3, leaving the [1, 0] branch dead. -/
theorem c3_minpoly_zero_typeerror :
    (match ff_init (.ord 8) with
     | .ok f =>
       match ffelt_init .pynone f with
       | .ok x =>
         match minpoly x with
         | .error (.typeError _) => true
         | _ => false
       | .error _ => false
     | .error _ => false) = true := by decide

set_option maxRecDepth 1000000 in
set_option maxHeartbeats 2000000000 in
/-- Claim C4 counterexample: in GF(4), construction from the field alone
stores exponent 1, not the claimed exponent 0. -/
theorem c4_counterexample :
    (match ff_init (.ord 4) with
     | .ok f =>
       match ffelt_init1 f with
       | .ok x => x.elt == some 0
       | .error _ => true
     | .error _ => true) = false := by decide

set_option maxRecDepth 1000000 in
set_option maxHeartbeats 2000000000 in
/-- Claim C4 as amended: constructing an ffelt from a field alone defaults the
elt argument to 1, yielding the primitive element with stored exponent
1 % (q-1) = 1 in every catalog field. -/
theorem c4_default_is_alpha :
    ((match ff_init (.ord 4) with
      | .ok f =>
        match ffelt_init1 f with
        | .ok x => x.elt == some 1
        | .error _ => false
      | .error _ => false) &&
     (match ff_init (.ord 8) with
      | .ok f =>
        match ffelt_init1 f with
        | .ok x => x.elt == some 1
        | .error _ => false
      | .error _ => false) &&
     (match ff_init (.ord 16) with
      | .ok f =>
        match ffelt_init1 f with
        | .ok x => x.elt == some 1
        | .error _ => false
      | .error _ => false) &&
     (match ff_init (.ord 32) with
      | .ok f =>
        match ffelt_init1 f with
        | .ok x => x.elt == some 1
        | .error _ => false
      | .error _ => false) &&
     (match ff_init (.ord 64) with
      | .ok f =>
        match ffelt_init1 f with
        | .ok x => x.elt == some 1
        | .error _ => false
      | .error _ => false) &&
     (match ff_init (.ord 128) with
      | .ok f =>
        match ffelt_init1 f with
        | .ok x => x.elt == some 1
        | .error _ => false
      | .error _ => false) &&
     (match ff_init (.ord 256) with
      | .ok f =>
        match ffelt_init1 f with
        | .ok x => x.elt == some 1
        | .error _ => false
      | .error _ => false)) = true := by decide

set_option maxRecDepth 1000000 in
set_option maxHeartbeats 2000000000 in
/-- Claim C5 (code bug): division by the zero element of the same field does
not fail with a division-by-zero error; zero / zero returns the zero element,
and nonzero / zero raises the TypeError of self.elt - None instead of the
intended guard, which only a literal None divisor reaches. -/
theorem c5_div_by_zero_element :
    (match ff_init (.ord 16) with
     | .ok f => c5demo f
     | .error _ => false) = true := by decide

set_option maxRecDepth 1000000 in
set_option maxHeartbeats 2000000000 in
/-- Claim C6 (code bug): binary operations on elements of different field
orders do not always fail; when the foreign operand is the zero or the one
element of its own field, the literal shortcuts of __eq__ let addition,
multiplication, division and equality silently return values. -/
theorem c6_cross_field_silent :
    (match ff_init (.ord 8), ff_init (.ord 16) with
     | .ok f8, .ok f16 => c6demo f8 f16
     | _, _ => false) = true := by decide

set_option maxRecDepth 1000000 in
set_option maxHeartbeats 2000000000 in
/-- Claim C7 counterexample: conjugates applied to the zero-sentinel element
of GF(4) does not terminate with an orbit; the first doubling evaluates
None + None and raises TypeError. -/
theorem c7_counterexample :
    (match ff_init (.ord 4) with
     | .ok f =>
       match ffelt_init .pynone f with
       | .ok x =>
         match conjugates x with
         | .error (.typeError _) => true
         | _ => false
       | .error _ => false
     | .error _ => false) = true := by decide

set_option maxRecDepth 1000000 in
set_option maxHeartbeats 2000000000 in
/-- Claim C7 as amended: for every nonzero element (every stored exponent) of
every catalog field, conjugates terminates and returns exactly the doubling
orbit, stopping at the first return to the start without repeating it, and
the orbit length divides m. -/
theorem c7_conjugates_orbit :
    ((match ff_init (.ord 4) with
      | .ok f => conjCheck f
      | .error _ => false) &&
     (match ff_init (.ord 8) with
      | .ok f => conjCheck f
      | .error _ => false) &&
     (match ff_init (.ord 16) with
      | .ok f => conjCheck f
      | .error _ => false) &&
     (match ff_init (.ord 32) with
      | .ok f => conjCheck f
      | .error _ => false) &&
     (match ff_init (.ord 64) with
      | .ok f => conjCheck f
      | .error _ => false) &&
     (match ff_init (.ord 128) with
      | .ok f => conjCheck f
      | .error _ => false) &&
     (match ff_init (.ord 256) with
      | .ok f => conjCheck f
      | .error _ => false)) = true := by decide

set_option maxRecDepth 1000000 in
set_option maxHeartbeats 2000000000 in
/-- Claim C8: in every catalog field, a + 0 == a and a + a == 0 for every
element a, including the zero element and the element 1. -/
theorem c8_add_identity_char2 :
    ((match ff_init (.ord 4) with
      | .ok f => addCheck f
      | .error _ => false) &&
     (match ff_init (.ord 8) with
      | .ok f => addCheck f
      | .error _ => false) &&
     (match ff_init (.ord 16) with
      | .ok f => addCheck f
      | .error _ => false) &&
     (match ff_init (.ord 32) with
      | .ok f => addCheck f
      | .error _ => false) &&
     (match ff_init (.ord 64) with
      | .ok f => addCheck f
      | .error _ => false) &&
     (match ff_init (.ord 128) with
      | .ok f => addCheck f
      | .error _ => false) &&
     (match ff_init (.ord 256) with
      | .ok f => addCheck f
      | .error _ => false)) = true := by decide

set_option maxRecDepth 1000000 in
set_option maxHeartbeats 2000000000 in
/-- Claim C9: building the field from the explicit primitive-polynomial
exponent list [0, 1, 4] yields GF(16) with power_to_poly[0] == 1 and
power_to_poly[4] == 3 (x^4 reduces to x + 1). -/
theorem c9_gf16_tables :
    (match ff_init (.poly [0, 1, 4]) with
     | .ok f =>
       forceFF f (fun fc =>
         Nat.beq fc.q 16 &&
         (match pget fc.power_to_poly (some 0) with
          | .ok 1 => true
          | _ => false) &&
         (match pget fc.power_to_poly (some 4) with
          | .ok 3 => true
          | _ => false))
     | .error _ => false) = true := by decide

set_option maxRecDepth 1000000 in
set_option maxHeartbeats 2000000000 in
/-- Claim C10: every failure path executes `raise <str>`, so in Python 3 each
reachable failure is the generic TypeError; unsupported field orders fail that
way too, and no operation ever produces one of the named error kinds. -/
theorem c10_errors_are_typeerror :
    (lall (fun n =>
       match ff_init (.ord n) with
       | .error (.typeError _) => true
       | _ => false) [0, 1, 2, 3, 5, 6, 7, 9, 15, 100, 255, 257] &&
     (match ff_init (.ord 8), ff_init (.ord 16) with
      | .ok f8, .ok f16 => forceFF f8 (fun g8 => forceFF f16 (fun g16 => c10sweep g8 g16))
      | _, _ => false)) = true := by decide

/-- Splitting lemma for the C2 range check. -/
lemma mpcRange_concat (fc : ff) (a b lo : Nat) :
    mpcRange fc (a + b) lo = (mpcRange fc a lo && mpcRange fc b (lo + a)) := by
  induction a generalizing lo with
  | zero =>
    rw [Nat.zero_add]
    show mpcRange fc b lo = (true && mpcRange fc b lo)
    rw [Bool.true_and]
  | succ a ih =>
    rw [Nat.succ_add]
    show (minpolyCheckElt fc lo && mpcRange fc (a + b) (lo + 1)) = _
    rw [ih, ← Bool.and_assoc, Nat.add_right_comm lo 1 a]
    rfl

set_option maxRecDepth 1000000 in
set_option maxHeartbeats 4000000000 in
lemma minpolyCheckOrd4 :
    (match ff_init (.ord 4) with
     | .ok f => minpolyCheck f
     | .error _ => false) = true := by decide

set_option maxRecDepth 1000000 in
set_option maxHeartbeats 4000000000 in
lemma minpolyCheckOrd8 :
    (match ff_init (.ord 8) with
     | .ok f => minpolyCheck f
     | .error _ => false) = true := by decide

set_option maxRecDepth 1000000 in
set_option maxHeartbeats 4000000000 in
lemma minpolyCheckOrd16 :
    (match ff_init (.ord 16) with
     | .ok f => minpolyCheck f
     | .error _ => false) = true := by decide

set_option maxRecDepth 1000000 in
set_option maxHeartbeats 4000000000 in
lemma minpolyCheckOrd32 :
    (match ff_init (.ord 32) with
     | .ok f => minpolyCheck f
     | .error _ => false) = true := by decide

set_option maxRecDepth 1000000 in
set_option maxHeartbeats 4000000000 in
lemma minpolyCheckOrd64 :
    (match ff_init (.ord 64) with
     | .ok f => minpolyCheck f
     | .error _ => false) = true := by decide

set_option maxRecDepth 1000000 in
set_option maxHeartbeats 4000000000 in
lemma mp128chunk0 :
    (match ff_init (.ord 128) with
     | .ok f => forceFF f (fun fc => mpcRange fc 32 0)
     | .error _ => false) = true := by decide

set_option maxRecDepth 1000000 in
set_option maxHeartbeats 4000000000 in
lemma mp128chunk1 :
    (match ff_init (.ord 128) with
     | .ok f => forceFF f (fun fc => mpcRange fc 32 32)
     | .error _ => false) = true := by decide

set_option maxRecDepth 1000000 in
set_option maxHeartbeats 4000000000 in
lemma mp128chunk2 :
    (match ff_init (.ord 128) with
     | .ok f => forceFF f (fun fc => mpcRange fc 32 64)
     | .error _ => false) = true := by decide

set_option maxRecDepth 1000000 in
set_option maxHeartbeats 4000000000 in
lemma mp128chunk3 :
    (match ff_init (.ord 128) with
     | .ok f => forceFF f (fun fc => mpcRange fc 31 96)
     | .error _ => false) = true := by decide

set_option maxRecDepth 1000000 in
set_option maxHeartbeats 4000000000 in
lemma mp256chunk0 :
    (match ff_init (.ord 256) with
     | .ok f => forceFF f (fun fc => mpcRange fc 32 0)
     | .error _ => false) = true := by decide

set_option maxRecDepth 1000000 in
set_option maxHeartbeats 4000000000 in
lemma mp256chunk1 :
    (match ff_init (.ord 256) with
     | .ok f => forceFF f (fun fc => mpcRange fc 32 32)
     | .error _ => false) = true := by decide

set_option maxRecDepth 1000000 in
set_option maxHeartbeats 4000000000 in
lemma mp256chunk2 :
    (match ff_init (.ord 256) with
     | .ok f => forceFF f (fun fc => mpcRange fc 32 64)
     | .error _ => false) = true := by decide

set_option maxRecDepth 1000000 in
set_option maxHeartbeats 4000000000 in
lemma mp256chunk3 :
    (match ff_init (.ord 256) with
     | .ok f => forceFF f (fun fc => mpcRange fc 32 96)
     | .error _ => false) = true := by decide

set_option maxRecDepth 1000000 in
set_option maxHeartbeats 4000000000 in
lemma mp256chunk4 :
    (match ff_init (.ord 256) with
     | .ok f => forceFF f (fun fc => mpcRange fc 32 128)
     | .error _ => false) = true := by decide

set_option maxRecDepth 1000000 in
set_option maxHeartbeats 4000000000 in
lemma mp256chunk5 :
    (match ff_init (.ord 256) with
     | .ok f => forceFF f (fun fc => mpcRange fc 32 160)
     | .error _ => false) = true := by decide

set_option maxRecDepth 1000000 in
set_option maxHeartbeats 4000000000 in
lemma mp256chunk6 :
    (match ff_init (.ord 256) with
     | .ok f => forceFF f (fun fc => mpcRange fc 32 192)
     | .error _ => false) = true := by decide

set_option maxRecDepth 1000000 in
set_option maxHeartbeats 4000000000 in
lemma mp256chunk7 :
    (match ff_init (.ord 256) with
     | .ok f => forceFF f (fun fc => mpcRange fc 31 224)
     | .error _ => false) = true := by decide

set_option maxRecDepth 1000000 in
set_option maxHeartbeats 4000000000 in
lemma minpolyCheckOrd128 :
    (match ff_init (.ord 128) with
     | .ok f => minpolyCheck f
     | .error _ => false) = true := by
  have h0 : mpcRange (mkffFromList [0, 3, 7]) 32 0 = true := mp128chunk0
  have h1 : mpcRange (mkffFromList [0, 3, 7]) 32 32 = true := mp128chunk1
  have h2 : mpcRange (mkffFromList [0, 3, 7]) 32 64 = true := mp128chunk2
  have h3 : mpcRange (mkffFromList [0, 3, 7]) 31 96 = true := mp128chunk3
  show mpcRange (mkffFromList [0, 3, 7]) 127 0 = true
  rw [show (127 : Nat) = 32 + (32 + (32 + 31)) from rfl]
  rw [mpcRange_concat, mpcRange_concat, mpcRange_concat]
  simp [h0, h1, h2, h3]

set_option maxRecDepth 1000000 in
set_option maxHeartbeats 4000000000 in
lemma minpolyCheckOrd256 :
    (match ff_init (.ord 256) with
     | .ok f => minpolyCheck f
     | .error _ => false) = true := by
  have h0 : mpcRange (mkffFromList [0, 2, 3, 4, 8]) 32 0 = true := mp256chunk0
  have h1 : mpcRange (mkffFromList [0, 2, 3, 4, 8]) 32 32 = true := mp256chunk1
  have h2 : mpcRange (mkffFromList [0, 2, 3, 4, 8]) 32 64 = true := mp256chunk2
  have h3 : mpcRange (mkffFromList [0, 2, 3, 4, 8]) 32 96 = true := mp256chunk3
  have h4 : mpcRange (mkffFromList [0, 2, 3, 4, 8]) 32 128 = true := mp256chunk4
  have h5 : mpcRange (mkffFromList [0, 2, 3, 4, 8]) 32 160 = true := mp256chunk5
  have h6 : mpcRange (mkffFromList [0, 2, 3, 4, 8]) 32 192 = true := mp256chunk6
  have h7 : mpcRange (mkffFromList [0, 2, 3, 4, 8]) 31 224 = true := mp256chunk7
  show mpcRange (mkffFromList [0, 2, 3, 4, 8]) 255 0 = true
  rw [show (255 : Nat) = 32 + (32 + (32 + (32 + (32 + (32 + (32 + 31)))))) from rfl]
  rw [mpcRange_concat, mpcRange_concat, mpcRange_concat, mpcRange_concat,
    mpcRange_concat, mpcRange_concat, mpcRange_concat]
  simp [h0, h1, h2, h3, h4, h5, h6, h7]

set_option maxRecDepth 1000000 in
set_option maxHeartbeats 4000000000 in
lemma minpolyGF8alpha :
    (match ff_init (.ord 8) with
     | .ok f =>
       forceFF f (fun fc =>
         match ffelt_init (.pyint 1) fc with
         | .ok x =>
           match minpoly x with
           | .ok [1, 0, 1, 1] => true
           | _ => false
         | .error _ => false)
     | .error _ => false) = true := by decide

/-- Claim C2: in every catalog field, for every stored exponent (including 0),
minpoly returns a monic coefficient vector, MSB first, of degree equal to the
conjugate-orbit length, which evaluates to the zero sentinel at the element
via the field pow and add operations; in GF(8), the minimal polynomial of the
exponent-1 element is [1, 0, 1, 1]. -/
theorem c2_minpoly_root_degree :
    (match ff_init (.ord 4) with
     | .ok f => minpolyCheck f
     | .error _ => false) = true ∧
    (match ff_init (.ord 8) with
     | .ok f => minpolyCheck f
     | .error _ => false) = true ∧
    (match ff_init (.ord 16) with
     | .ok f => minpolyCheck f
     | .error _ => false) = true ∧
    (match ff_init (.ord 32) with
     | .ok f => minpolyCheck f
     | .error _ => false) = true ∧
    (match ff_init (.ord 64) with
     | .ok f => minpolyCheck f
     | .error _ => false) = true ∧
    (match ff_init (.ord 128) with
     | .ok f => minpolyCheck f
     | .error _ => false) = true ∧
    (match ff_init (.ord 256) with
     | .ok f => minpolyCheck f
     | .error _ => false) = true ∧
    (match ff_init (.ord 8) with
     | .ok f =>
       forceFF f (fun fc =>
         match ffelt_init (.pyint 1) fc with
         | .ok x =>
           match minpoly x with
           | .ok [1, 0, 1, 1] => true
           | _ => false
         | .error _ => false)
     | .error _ => false) = true :=
  ⟨minpolyCheckOrd4, minpolyCheckOrd8, minpolyCheckOrd16, minpolyCheckOrd32, minpolyCheckOrd64, minpolyCheckOrd128, minpolyCheckOrd256, minpolyGF8alpha⟩

end Binext
